import Mathlib

/-!
Verification of the howmany30 web application ("How Many Shots to Score 30").

The development shallowly embeds the TypeScript/JavaScript sources:
  - the NBA stats client (searchPlayers, fetchPlayerSeasonAverages,
    tryPreviousSeason, getCurrentSeason, getPreviousSeason),
  - the two HTTP route handlers (player search, player stats),
  - the network-issuing parts of the ShotsTo30Calculator UI component.

JavaScript numbers are modelled as exact rationals.  The non-finite values
NaN and plus or minus Infinity are represented by the `none` case of
`Option` results: a string whose JS Number(...) coercion is not a finite
number is mapped to `none`.  Network responses are passed in explicitly as
an environment record, so every function of the embedding is a pure total
function of its inputs and the responses it would have received.

String methods are re-implemented over character lists (rather than via the
byte-position based library functions) so that every definition evaluates
by kernel reduction on concrete inputs.
-/

namespace HowMany30

/-! ### String primitives mirroring the JS string methods used -/

/-- JS whitespace test for `trim` (the common ASCII whitespace characters). -/
def isJsWS (c : Char) : Bool :=
  c = ' ' || c = '\t' || c = '\n' || c = '\r' || c = '\x0c' || c = '\x0b'

/-- Characters of `s.trim()`: surrounding whitespace removed. -/
def trimChars (cs : List Char) : List Char :=
  ((cs.dropWhile isJsWS).reverse.dropWhile isJsWS).reverse

/-- JS `s.trim()`. -/
def strTrim (s : String) : String := ⟨trimChars s.data⟩

/-- JS `s.toLowerCase()` (ASCII range, the one exercised by the data). -/
def strLower (s : String) : String := ⟨s.data.map Char.toLower⟩

/-- Whether the first list starts with the second. -/
def listStartsWith : List Char → List Char → Bool
  | _, [] => true
  | [], _ :: _ => false
  | a :: s, b :: p => a = b && listStartsWith s p

/-- Whether the second list occurs as a contiguous run inside the first. -/
def listHasRun : List Char → List Char → Bool
  | [], pat => listStartsWith [] pat
  | a :: rest, pat => listStartsWith (a :: rest) pat || listHasRun rest pat

/-- JS `s.includes(pat)`. -/
def strIncludes (s pat : String) : Bool := listHasRun s.data pat.data

/-- JS `s.split(sep)` for a one-character separator, on character lists. -/
def splitOnChar (sep : Char) : List Char → List (List Char)
  | [] => [[]]
  | c :: rest =>
    if c = sep then [] :: splitOnChar sep rest
    else
      match splitOnChar sep rest with
      | [] => [[c]]
      | g :: gs => (c :: g) :: gs

/-- JS `s.split(", ")` (the two-character separator used on the
"Last, First" name form), on character lists. -/
def splitOnCommaSpace : List Char → List (List Char)
  | [] => [[]]
  | [c] => [[c]]
  | c1 :: c2 :: rest =>
    if c1 = ',' ∧ c2 = ' ' then [] :: splitOnCommaSpace rest
    else
      match splitOnCommaSpace (c2 :: rest) with
      | [] => [[c1]]
      | g :: gs => (c1 :: g) :: gs

/-! ### JS number primitives -/

/-- Value of a list of decimal digit characters, most significant first. -/
def decDigitsVal (ds : List Char) : ℕ :=
  ds.foldl (fun a c => a * 10 + (c.toNat - 48)) 0

/-- Value of one hexadecimal digit character, `none` for a non-digit. -/
def hexDigitVal (c : Char) : Option ℕ :=
  if c.isDigit then some (c.toNat - 48)
  else if 'a' ≤ c ∧ c ≤ 'f' then some (c.toNat - 87)
  else if 'A' ≤ c ∧ c ≤ 'F' then some (c.toNat - 55)
  else none

/-- Value of a nonempty digit string in the given base (2, 8 or 16 here),
`none` when empty or any character is not a digit of that base.  Mirrors how
JS `Number` reads `0x` / `0o` / `0b` literals. -/
def radixVal (base : ℕ) (cs : List Char) : Option ℕ :=
  if cs = [] then none
  else cs.foldl
    (fun acc c =>
      match acc, hexDigitVal c with
      | some a, some d => if d < base then some (a * base + d) else none
      | _, _ => none)
    (some 0)

/-- Split a character list at the first `e` or `E` (exponent marker of a JS
decimal literal): returns the mantissa part and, when a marker is present,
the characters after it. -/
def splitExpo (cs : List Char) : List Char × Option (List Char) :=
  match cs.span (fun c => ¬ (c = 'e' ∨ c = 'E')) with
  | (m, []) => (m, none)
  | (m, _ :: rest) => (m, some rest)

/-- Parse the mantissa of a JS decimal literal: digits, optionally with one
decimal point, at least one digit overall (`12`, `12.5`, `.5`, `5.`). -/
def parseDecMantissa (cs : List Char) : Option ℚ :=
  match cs.span Char.isDigit with
  | (ip, []) => if ip = [] then none else some (decDigitsVal ip)
  | (ip, '.' :: fp) =>
      if fp.all Char.isDigit ∧ (ip ≠ [] ∨ fp ≠ []) then
        some ((decDigitsVal ip : ℚ) + (decDigitsVal fp : ℚ) / 10 ^ fp.length)
      else none
  | _ => none

/-- Parse the exponent of a JS decimal literal: an optional sign followed by
at least one digit. -/
def parseExponent (cs : List Char) : Option ℤ :=
  match cs with
  | '+' :: ds =>
      if ds ≠ [] ∧ ds.all Char.isDigit then some (decDigitsVal ds) else none
  | '-' :: ds =>
      if ds ≠ [] ∧ ds.all Char.isDigit then some (-(decDigitsVal ds : ℤ)) else none
  | ds => if ds ≠ [] ∧ ds.all Char.isDigit then some (decDigitsVal ds) else none

/-- Parse an unsigned JS decimal literal, exponent included. -/
def parseUnsignedDec (cs : List Char) : Option ℚ :=
  match splitExpo cs with
  | (m, none) => parseDecMantissa m
  | (m, some e) =>
      match parseDecMantissa m, parseExponent e with
      | some mv, some ev => some (mv * (10 : ℚ) ^ ev)
      | _, _ => none

/-- Parse a JS numeric literal without a sign: `Infinity` is not a finite
number, so it yields `none`; otherwise a decimal literal. -/
def parseSignless (cs : List Char) : Option ℚ :=
  if cs = "Infinity".data then none else parseUnsignedDec cs

/-- JS `Number(s)` for a string `s`, restricted to finite results: `none`
stands for NaN or for plus or minus Infinity (so `(jsStrToNum s).isSome`
is exactly `Number.isFinite(Number(s))`).  Follows the StringNumericLiteral
grammar: surrounding whitespace is trimmed, the empty string is 0, `0x` /
`0o` / `0b` radix literals take no sign, a decimal literal takes an
optional sign and an optional exponent. -/
def jsStrToNum (s : String) : Option ℚ :=
  let t := trimChars s.data
  if t = [] then some 0
  else
    match t with
    | '0' :: 'x' :: ds => (radixVal 16 ds).map (fun n => (n : ℚ))
    | '0' :: 'X' :: ds => (radixVal 16 ds).map (fun n => (n : ℚ))
    | '0' :: 'o' :: ds => (radixVal 8 ds).map (fun n => (n : ℚ))
    | '0' :: 'O' :: ds => (radixVal 8 ds).map (fun n => (n : ℚ))
    | '0' :: 'b' :: ds => (radixVal 2 ds).map (fun n => (n : ℚ))
    | '0' :: 'B' :: ds => (radixVal 2 ds).map (fun n => (n : ℚ))
    | '+' :: rest => parseSignless rest
    | '-' :: rest => (parseSignless rest).map Neg.neg
    | cs => parseSignless cs

/-- JS `Number(x.toFixed(1))`: the value rounded to one decimal place
(ties round up, as toFixed does for the positive values that occur here). -/
def roundTo1 (x : ℚ) : ℚ := (⌊x * 10 + 1 / 2⌋ : ℚ) / 10

/-! ### Data model (lib/nba.ts)

A result set of the NBA Stats API is tabular: a name, a header list and
rows of positional cells.  A cell is modelled by `Val`: a finite number, a
string, `null`, or `nonNum` standing for any other value whose JS
`Number(...)` coercion is NaN (objects, undefined fields inside a row). -/

inductive Val where
  | num (q : ℚ)
  | str (s : String)
  | vnull
  | nonNum
deriving DecidableEq

/-- JS `Number(cell)` restricted to finite results (`none` is NaN or
non-finite): a number is itself, `null` coerces to 0, a string is parsed,
anything else is NaN.  An absent cell (`row[i]` out of range, i.e. JS
`undefined`) is also NaN. -/
def cellNum (c : Option Val) : Option ℚ :=
  match c with
  | none => none
  | some (Val.num q) => some q
  | some (Val.str s) => jsStrToNum s
  | some Val.vnull => some 0
  | some Val.nonNum => none

/-- JS `String(cell || "")` as used on the name cells of the player-info
result set: `undefined`, `null`, the empty string and the number 0 are
falsy and give the empty string; other cells are rendered to a string
(name cells are strings in the actual API payload). -/
def cellStringOrEmpty (c : Option Val) : String :=
  match c with
  | none => ""
  | some (Val.str s) => s
  | some Val.vnull => ""
  | some (Val.num q) => if q = 0 then "" else toString q
  | some Val.nonNum => "[object Object]"

/-- One result set of the tabular NBA Stats API response. -/
structure ResultSet where
  name : String
  headers : List String
  rowSet : List (List Val)
deriving DecidableEq

/-- A fetched API response as the stats client observes it: the `ok` flag
of the HTTP response and the parsed `resultSets` array (a missing or empty
array are identified, as the code treats them alike). -/
structure ApiResponse where
  ok : Bool
  resultSets : List ResultSet
deriving DecidableEq

/-- JS `array.indexOf(x)` on the header list, with `none` for -1. -/
def headerIndex (headers : List String) (h : String) : Option ℕ :=
  headers.findIdx? (fun x => x = h)

/-- JS `resultSets.find(rs => rs.name === n)`. -/
def findResultSet (sets : List ResultSet) (n : String) : Option ResultSet :=
  sets.find? (fun rs => rs.name = n)

/-- A player record (`Player` in lib/nba.ts). -/
structure Player where
  id : ℚ
  first_name : String
  last_name : String
  display_name : Option String := none
deriving DecidableEq

/-- A stats record (`PlayerStats` in lib/nba.ts). -/
structure PlayerStats where
  player : Player
  pts : ℚ
  fga : ℚ
deriving DecidableEq

/-! ### Season strings (getCurrentSeason / getPreviousSeason) -/

/-- JS `String(n).slice(-2)`: the last two characters (the whole string
when it is shorter). -/
def sliceLast2 (s : String) : String := ⟨s.data.drop (s.data.length - 2)⟩

/-- getCurrentSeason, with the date made explicit: `year` is
`getFullYear()` and `month` is `getMonth() + 1` (1 to 12).  Before October
the season is `(year-1)-(year)`, from October on it is `(year)-(year+1)`,
the second year rendered by its last two digits. -/
def getCurrentSeason (year : ℤ) (month : ℕ) : String :=
  if month ≥ 10 then
    toString year ++ "-" ++ sliceLast2 (toString (year + 1))
  else
    toString (year - 1) ++ "-" ++ sliceLast2 (toString year)

/-- getPreviousSeason, same date convention as `getCurrentSeason`. -/
def getPreviousSeason (year : ℤ) (month : ℕ) : String :=
  if month ≥ 10 then
    toString (year - 1) ++ "-" ++ sliceLast2 (toString year)
  else
    toString (year - 2) ++ "-" ++ sliceLast2 (toString (year - 1))

/-! ### Stats client: fetchPlayerSeasonAverages and tryPreviousSeason

The environment carries the three responses one invocation can receive:
the season dashboard for the current season, the season dashboard for the
previous season, and the commonplayerinfo identity lookup (requested with
identical parameters from both season paths). -/

structure StatsEnv where
  current : ApiResponse
  previous : ApiResponse
  playerInfo : ApiResponse
deriving DecidableEq

/-- Parsing of the commonplayerinfo response into a `Player`: names default
to empty strings unless the response is ok, has a first result set with at
least one row, and that set has both FIRST_NAME and LAST_NAME columns. -/
def parsePlayerInfo (playerId : ℚ) (resp : ApiResponse) : Player :=
  let dft : Player := { id := playerId, first_name := "", last_name := "" }
  if resp.ok then
    match resp.resultSets with
    | [] => dft
    | rs0 :: _ =>
      match rs0.rowSet with
      | [] => dft
      | playerRow :: _ =>
        match headerIndex rs0.headers "FIRST_NAME",
              headerIndex rs0.headers "LAST_NAME" with
        | some fi, some li =>
            { id := playerId
              first_name := cellStringOrEmpty (playerRow.get? fi)
              last_name := cellStringOrEmpty (playerRow.get? li) }
        | _, _ => dft
  else dft

/-- How a season-dashboard response resolves.  `noDashboard` covers a
missing or empty resultSets array, no OverallPlayerDashboard result set,
or an empty rowSet (the conditions under which the current-season path
falls back); `badColumns` is a missing PTS or FGA column (indexOf -1);
`badValues` is a NaN pts or fga; `zeroFga` is a resolved pair whose fga
is 0; `stats` is a resolved pair with nonzero fga. -/
inductive DashOutcome where
  | noDashboard
  | badColumns
  | badValues
  | zeroFga (pts : ℚ)
  | stats (pts fga : ℚ)
deriving DecidableEq

/-- Resolution of pts and fga from the resultSets of a season-dashboard
response, mirroring the extraction steps shared by
fetchPlayerSeasonAverages and tryPreviousSeason: find the
OverallPlayerDashboard result set, take its first row, locate the PTS and
FGA columns by header, coerce the two cells with `Number(...)`, and test
`isNaN(pts) || isNaN(fga) || fga === 0`. -/
def resolveDashboard (sets : List ResultSet) : DashOutcome :=
  match findResultSet sets "OverallPlayerDashboard" with
  | none => DashOutcome.noDashboard
  | some seasonTotals =>
    match seasonTotals.rowSet with
    | [] => DashOutcome.noDashboard
    | row :: _ =>
      match headerIndex seasonTotals.headers "PTS",
            headerIndex seasonTotals.headers "FGA" with
      | some ptsIndex, some fgaIndex =>
        match cellNum (row.get? ptsIndex), cellNum (row.get? fgaIndex) with
        | some pts, some fga =>
            if fga = 0 then DashOutcome.zeroFga pts else DashOutcome.stats pts fga
        | _, _ => DashOutcome.badValues
      | _, _ => DashOutcome.badColumns

/-- tryPreviousSeason: one previous-season dashboard request; every failure
(non-ok response, no dashboard, bad columns, NaN, fga = 0) returns `none`
with no further fallback; on success the record carries pts and fga rounded
to one decimal and the identity looked up from commonplayerinfo. -/
def tryPreviousSeason (env : StatsEnv) (playerId : ℚ) : Option PlayerStats :=
  if ¬ env.previous.ok then none
  else
    match resolveDashboard env.previous.resultSets with
    | DashOutcome.stats pts fga =>
        some { player := parsePlayerInfo playerId env.playerInfo
               pts := roundTo1 pts
               fga := roundTo1 fga }
    | _ => none

/-- fetchPlayerSeasonAverages: a non-ok current-season response returns
`none` outright; a current season with no dashboard data (missing or empty
resultSets, no OverallPlayerDashboard, or an empty rowSet) falls back to
`tryPreviousSeason`; missing columns, NaN values or a zero fga return
`none`; otherwise the rounded stats record. -/
def fetchPlayerSeasonAverages (env : StatsEnv) (playerId : ℚ) : Option PlayerStats :=
  if ¬ env.current.ok then none
  else
    match resolveDashboard env.current.resultSets with
    | DashOutcome.noDashboard => tryPreviousSeason env playerId
    | DashOutcome.stats pts fga =>
        some { player := parsePlayerInfo playerId env.playerInfo
               pts := roundTo1 pts
               fga := roundTo1 fga }
    | _ => none

/-- Number of season-dashboard requests one fetchPlayerSeasonAverages
invocation issues: the current-season request always, plus the
previous-season request exactly on the fallback path. -/
def dashboardCalls (env : StatsEnv) : ℕ :=
  if ¬ env.current.ok then 1
  else
    match resolveDashboard env.current.resultSets with
    | DashOutcome.noDashboard => 2
    | _ => 1

/-! ### Stats client: searchPlayers -/

/-- One row of the commonallplayers result set.  The code reads positions
0 (PERSON_ID), 1 (DISPLAY_LAST_COMMA_FIRST), 2 (DISPLAY_FIRST_LAST),
3 (ROSTERSTATUS) and 14 (GAMES_PLAYED_FLAG) and casts them to the types
below; the row is modelled with those five cells as typed fields. -/
structure PlayerRow where
  personId : ℚ
  displayLastCommaFirst : String
  displayFirstLast : String
  rosterStatus : ℚ
  gamesPlayedFlag : String
deriving DecidableEq

/-- Environment of one searchPlayers invocation: the HTTP status of the
commonallplayers response and its result sets, each a row list. -/
structure SearchEnv where
  status : ℕ
  resultSets : List (List PlayerRow)
deriving DecidableEq

/-- JS `response.ok`: status in the 2xx range. -/
def respOk (status : ℕ) : Bool :=
  decide (200 ≤ status) && decide (status ≤ 299)

/-- The soft error message searchPlayers reports for a non-ok upstream
status: a specific message for 403 and for 502, a generic one with the
status code otherwise. -/
def errMsgFor (status : ℕ) : String :=
  if status = 403 then
    "NBA API blocked this request (proxy or origin may be blocked). Try Render or another host for the proxy."
  else if status = 502 then
    "Proxy could not reach NBA API. Check proxy logs."
  else
    "Search failed: " ++ toString status

/-- The active-player filter: on roster (ROSTERSTATUS 1) or has games this
season (GAMES_PLAYED_FLAG "Y"). -/
def rowIsActive (row : PlayerRow) : Bool :=
  decide (row.rosterStatus = 1) || decide (row.gamesPlayedFlag = "Y")

/-- The name match: the lowercased query occurs in the lowercased
"First Last" form, or in the lowercased "Last, First" form, or in any
space-separated token of the former, or in any comma-space-separated token
of the latter. -/
def rowMatchesQuery (queryLower : String) (row : PlayerRow) : Bool :=
  strIncludes (strLower row.displayFirstLast) queryLower ||
  strIncludes (strLower row.displayLastCommaFirst) queryLower ||
  (splitOnChar ' ' (strLower row.displayFirstLast).data).any
    (fun part => listHasRun part queryLower.data) ||
  (splitOnCommaSpace (strLower row.displayLastCommaFirst).data).any
    (fun part => listHasRun part queryLower.data)

/-- The Player a matching row is mapped to: the "Last, First" name is
split on the comma and the parts trimmed (a field defaults to empty when
its part is missing), and the "First Last" form is the display name when
nonempty, else the "Last, First" form. -/
def playerOfRow (row : PlayerRow) : Player :=
  let nameParts := (splitOnChar ',' row.displayLastCommaFirst.data).map
    (fun cs => strTrim ⟨cs⟩)
  { id := row.personId
    first_name := nameParts.getD 1 ""
    last_name := nameParts.getD 0 ""
    display_name := some (if row.displayFirstLast ≠ "" then
                            row.displayFirstLast
                          else row.displayLastCommaFirst) }

/-- The row mapper of searchPlayers: `none` for an inactive or non-matching
row, otherwise the Player built from the row. -/
def rowToPlayer (queryLower : String) (row : PlayerRow) : Option Player :=
  if ¬ rowIsActive row then none
  else if ¬ rowMatchesQuery queryLower row then none
  else some (playerOfRow row)

/-- Return shape of searchPlayers: the player list and the optional soft
error string. -/
structure SearchResult where
  data : List Player
  error : Option String := none
deriving DecidableEq

/-- searchPlayers: a whitespace-only query returns an empty result with no
request; a non-ok upstream status returns an empty result with the status
specific soft error; missing or empty resultSets, or an empty first row
set, return an empty result; otherwise the active rows matching the
lowercased trimmed query, mapped to Players and capped at 25. -/
def searchPlayers (env : SearchEnv) (query : String) : SearchResult :=
  if strTrim query = "" then { data := [] }
  else if ¬ respOk env.status then
    { data := [], error := some (errMsgFor env.status) }
  else
    match env.resultSets with
    | [] => { data := [] }
    | players :: _ =>
      if players.isEmpty then { data := [] }
      else
        let queryLower := strTrim (strLower query)
        { data := (players.filterMap (rowToPlayer queryLower)).take 25 }

/-! ### Route handlers -/

/-- Pagination metadata of the search envelope. -/
structure Meta where
  total_pages : ℕ
  current_page : ℕ
  next_page : Option ℕ
  per_page : ℕ
  total_count : ℕ
deriving DecidableEq

/-- JSON body of the search endpoint. -/
structure SearchBody where
  data : List Player
  meta : Meta
  error : Option String := none
deriving DecidableEq

/-- An HTTP response of a route handler. -/
structure HttpResponse (β : Type) where
  status : ℕ
  body : β
deriving DecidableEq

/-- The empty envelope the search endpoint returns for an absent or empty
query (and from its catch branch): pagination zeroed or defaulted. -/
def emptySearchEnvelope : SearchBody :=
  { data := []
    meta := { total_pages := 0, current_page := 1, next_page := none,
              per_page := 25, total_count := 0 } }

/-- GET /api/players/search.  `q` is `none` when the parameter is absent;
the falsiness guard `!query` treats absent and empty alike.  Otherwise the
result of searchPlayers is wrapped with one-page metadata, the soft error
is copied into the body when present, and the status is 503 exactly when a
soft error is present.  The catch branch of the handler has no
counterpart here: the embedded searchPlayers is a total function. -/
def searchRoute (env : SearchEnv) (q : Option String) : HttpResponse SearchBody :=
  match q with
  | none => { status := 200, body := emptySearchEnvelope }
  | some query =>
    if query = "" then { status := 200, body := emptySearchEnvelope }
    else
      let result := searchPlayers env query
      { status := if result.error.isSome then 503 else 200
        body := { data := result.data
                  meta := { total_pages := 1, current_page := 1,
                            next_page := none, per_page := 25,
                            total_count := result.data.length }
                  error := result.error } }

/-- JSON body of the stats endpoint: an error object or a wrapped record. -/
inductive StatsBody where
  | err (msg : String)
  | data (stats : PlayerStats)
deriving DecidableEq

/-- GET /api/players/[id]/stats: `Number(id)` must be finite, else 400;
then a missing stats result is 404 and a present one is 200. -/
def statsRoute (env : StatsEnv) (id : String) : HttpResponse StatsBody :=
  match jsStrToNum id with
  | none => { status := 400, body := StatsBody.err "Invalid player ID" }
  | some playerId =>
    match fetchPlayerSeasonAverages env playerId with
    | none => { status := 404, body := StatsBody.err "Player stats not found" }
    | some stats => { status := 200, body := StatsBody.data stats }

/-! ### UI (ShotsTo30Calculator) -/

/-- Outcome of the stats effect that runs when a player is selected. -/
inductive UiOutcome where
  | err (msg : String)
  | result (shots : ℚ) (playerName : String) (pts fga : ℚ)
deriving DecidableEq

/-- The calculation the UI performs on the fetched stats record: missing
record or zero fga or zero pts shows an error; otherwise the shot count is
30 divided by points-per-shot (pts / fga), rounded via `toFixed(1)`. -/
def uiCalculate (stats : Option PlayerStats) : UiOutcome :=
  match stats with
  | none => UiOutcome.err "No season data available for this player."
  | some s =>
    if s.fga = 0 ∨ s.pts = 0 then
      UiOutcome.err "Player has no field goal attempts or points this season."
    else
      let pointsPerShot := s.pts / s.fga
      let shotsTo30 := 30 / pointsPerShot
      UiOutcome.result (roundTo1 shotsTo30)
        (s.player.first_name ++ " " ++ s.player.last_name) s.pts s.fga

/-- The debounced search effect of the UI, keyed on the query text: the
request it will issue once the 800ms quiet period elapses, or `none` when
the effect issues no request (blank query, or trimmed length below 3). -/
def debounceSearchRequest (searchQuery : String) : Option String :=
  if strTrim searchQuery = "" then none
  else if (strTrim searchQuery).length < 3 then none
  else some searchQuery

/-- The Enter-key handler of the UI: with results present it selects the
first result and issues no request; with no results and a nonempty trimmed
query it issues an immediate search request (no length minimum); otherwise
nothing. -/
def enterSearchRequest (searchResults : List Player) (searchQuery : String) :
    Option String :=
  if searchResults.length > 0 then none
  else if strTrim searchQuery ≠ "" then some searchQuery
  else none

/-! ### Example data used in theorem statements and witnesses -/

/-- A commonallplayers row for LeBron James, as the API reports it. -/
def lebronRow : PlayerRow :=
  { personId := 2544
    displayLastCommaFirst := "James, LeBron"
    displayFirstLast := "LeBron James"
    rosterStatus := 1
    gamesPlayedFlag := "Y" }

/-! ### Theorems -/

/-- C1: for every fetched stats record with nonzero points-per-game and
nonzero field-goal attempts, the UI calculation succeeds and its shot
count equals 30 divided by (pts / fga), rounded to one decimal place; in
particular pts = 27.5 and fga = 20 give a shot count of 21.8. -/
theorem shots_to_thirty_formula (s : PlayerStats)
    (hpts : s.pts ≠ 0) (hfga : s.fga ≠ 0) :
    uiCalculate (some s) =
      UiOutcome.result (roundTo1 (30 / (s.pts / s.fga)))
        (s.player.first_name ++ " " ++ s.player.last_name) s.pts s.fga ∧
    roundTo1 (30 / ((27.5 : ℚ) / 20)) = 21.8 := by
  constructor
  · have h : ¬ (s.fga = 0 ∨ s.pts = 0) := by
      push_neg
      exact ⟨hfga, hpts⟩
    simp [uiCalculate, h]
  · norm_num [roundTo1, Int.floor_eq_iff]

/-- C1 witness: the theorem applied to the concrete record with pts 27.5
and fga 20 yields the 21.8 shot count. -/
theorem shots_to_thirty_formula_witness :
    uiCalculate (some { player := { id := 2544, first_name := "LeBron",
                                    last_name := "James" },
                        pts := 27.5, fga := 20 }) =
      UiOutcome.result 21.8 "LeBron James" 27.5 20 := by
  have h := shots_to_thirty_formula
    { player := { id := 2544, first_name := "LeBron", last_name := "James" },
      pts := 27.5, fga := 20 } (by norm_num) (by norm_num)
  rw [h.1]
  norm_num
  constructor
  · norm_num [roundTo1, Int.floor_eq_iff]
  · decide

/-- C2 counterexample: the query "ab" trims to fewer than 3 characters,
yet pressing Enter with no results on screen issues an immediate search
request for it, so the UI does not issue zero network calls for every
query shorter than 3 characters. -/
theorem short_query_enter_counterexample :
    (strTrim "ab").length < 3 ∧ enterSearchRequest [] "ab" = some "ab" := by
  decide

/-- C2 amended: for every query whose trimmed length is below 3 the
debounced search effect issues no request; the Enter handler, which has no
3-character minimum, issues no request exactly when results are present or
the trimmed query is empty. -/
theorem short_query_request_behavior (q : String) (rs : List Player)
    (hshort : (strTrim q).length < 3) :
    debounceSearchRequest q = none ∧
    (enterSearchRequest rs q = none ↔ rs ≠ [] ∨ strTrim q = "") := by
  constructor
  · by_cases h : strTrim q = "" <;> simp [debounceSearchRequest, h, hshort]
  · unfold enterSearchRequest
    rcases rs with _ | ⟨p, ps⟩
    · by_cases h : strTrim q = "" <;> simp [h]
    · simp

/-- C2 witness: the amended theorem applied at the query "ab" with no
results. -/
theorem short_query_request_behavior_witness :
    debounceSearchRequest "ab" = none :=
  (short_query_request_behavior "ab" [] (by decide)).1

/-- C8: before October the season label is (year-1)-(year) and from
October on it is (year)-(year+1), the second year rendered by its last two
digits (e.g. "2024-25"), and the previous-season label for the same date
is the same rule applied one year earlier. -/
theorem season_strings (y : ℤ) (m : ℕ) :
    (m < 10 → getCurrentSeason y m = toString (y - 1) ++ "-" ++ sliceLast2 (toString y)) ∧
    (10 ≤ m → getCurrentSeason y m = toString y ++ "-" ++ sliceLast2 (toString (y + 1))) ∧
    getPreviousSeason y m = getCurrentSeason (y - 1) m ∧
    getCurrentSeason 2024 10 = "2024-25" ∧
    getCurrentSeason 2025 3 = "2024-25" ∧
    getPreviousSeason 2025 3 = "2023-24" := by
  refine ⟨?_, ?_, ?_, by decide, by decide, by decide⟩
  · intro h
    rw [getCurrentSeason, if_neg (by omega)]
  · intro h
    rw [getCurrentSeason, if_pos h]
  · by_cases h : 10 ≤ m
    · rw [getPreviousSeason, getCurrentSeason, if_pos h, if_pos h]
      have e : y - 1 + 1 = y := by ring
      rw [e]
    · rw [getPreviousSeason, getCurrentSeason, if_neg h, if_neg h]
      have e : y - 1 - 1 = y - 2 := by ring
      rw [e]

/-- C8 witness: the theorem applied at September and October 2024. -/
theorem season_strings_witness :
    getCurrentSeason 2024 9 = "2023-24" ∧ getCurrentSeason 2024 10 = "2024-25" := by
  constructor
  · rw [(season_strings 2024 9).1 (by norm_num)]
    decide
  · exact (season_strings 2024 10).2.2.2.1

/-- C3: in whichever season lookup is operative, a resolved fga of 0
(`zeroFga`), a non-numeric pts or fga (`badValues`), or a missing PTS/FGA
column (`badColumns`) makes the stats client return no result; and the UI
never divides by fga when a record with fga = 0 does arrive (its own guard
shows an error instead). -/
theorem zero_fga_never_reaches_division (env : StatsEnv) (pid : ℚ) :
    (∀ pts, resolveDashboard env.current.resultSets = DashOutcome.zeroFga pts →
      fetchPlayerSeasonAverages env pid = none) ∧
    (resolveDashboard env.current.resultSets = DashOutcome.badValues →
      fetchPlayerSeasonAverages env pid = none) ∧
    (resolveDashboard env.current.resultSets = DashOutcome.badColumns →
      fetchPlayerSeasonAverages env pid = none) ∧
    (resolveDashboard env.current.resultSets = DashOutcome.noDashboard →
      (∀ pts, resolveDashboard env.previous.resultSets = DashOutcome.zeroFga pts →
        fetchPlayerSeasonAverages env pid = none) ∧
      (resolveDashboard env.previous.resultSets = DashOutcome.badValues →
        fetchPlayerSeasonAverages env pid = none) ∧
      (resolveDashboard env.previous.resultSets = DashOutcome.badColumns →
        fetchPlayerSeasonAverages env pid = none)) ∧
    (∀ s : PlayerStats, s.fga = 0 → uiCalculate (some s) =
      UiOutcome.err "Player has no field goal attempts or points this season.") := by
  refine ⟨?_, ?_, ?_, ?_, ?_⟩
  · intro pts h
    by_cases hok : env.current.ok <;> simp [fetchPlayerSeasonAverages, hok, h]
  · intro h
    by_cases hok : env.current.ok <;> simp [fetchPlayerSeasonAverages, hok, h]
  · intro h
    by_cases hok : env.current.ok <;> simp [fetchPlayerSeasonAverages, hok, h]
  · intro h
    refine ⟨?_, ?_, ?_⟩
    · intro pts hprev
      by_cases hok : env.current.ok <;>
        by_cases hpok : env.previous.ok <;>
          simp [fetchPlayerSeasonAverages, tryPreviousSeason, hok, hpok, h, hprev]
    · intro hprev
      by_cases hok : env.current.ok <;>
        by_cases hpok : env.previous.ok <;>
          simp [fetchPlayerSeasonAverages, tryPreviousSeason, hok, hpok, h, hprev]
    · intro hprev
      by_cases hok : env.current.ok <;>
        by_cases hpok : env.previous.ok <;>
          simp [fetchPlayerSeasonAverages, tryPreviousSeason, hok, hpok, h, hprev]
  · intro s h
    simp [uiCalculate, h]

/-- Environment for the C3 witness: an ok current-season response whose
dashboard row resolves to pts 10 and fga 0. -/
def zeroFgaEnv : StatsEnv :=
  { current := { ok := true, resultSets :=
      [{ name := "OverallPlayerDashboard", headers := ["PTS", "FGA"],
         rowSet := [[Val.num 10, Val.num 0]] }] }
    previous := { ok := true, resultSets := [] }
    playerInfo := { ok := false, resultSets := [] } }

/-- C3 witness: the theorem applied to the concrete zero-fga environment. -/
theorem zero_fga_never_reaches_division_witness :
    fetchPlayerSeasonAverages zeroFgaEnv 1 = none :=
  (zero_fga_never_reaches_division zeroFgaEnv 1).1 10 (by decide)

/-- C4: a stats request whose id does not coerce to a finite number is
answered 400 with an error body, independently of the stats environment
(the stats client is not consulted); an id that parses is passed to the
client, whose missing result yields 404 and whose record yields 200 with
the record wrapped as data. -/
theorem stats_route_contract (id : String) (env env2 : StatsEnv) :
    (jsStrToNum id = none →
      statsRoute env id = { status := 400, body := StatsBody.err "Invalid player ID" } ∧
      statsRoute env id = statsRoute env2 id) ∧
    (∀ n, jsStrToNum id = some n →
      (fetchPlayerSeasonAverages env n = none →
        statsRoute env id = { status := 404, body := StatsBody.err "Player stats not found" }) ∧
      (∀ s, fetchPlayerSeasonAverages env n = some s →
        statsRoute env id = { status := 200, body := StatsBody.data s })) := by
  constructor
  · intro h
    constructor
    · simp [statsRoute, h]
    · simp [statsRoute, h]
  · intro n hn
    constructor
    · intro hf
      simp [statsRoute, hn, hf]
    · intro s hs
      simp [statsRoute, hn, hs]

/-- Environment for the C4 witness. -/
def c4Env : StatsEnv :=
  { current := { ok := false, resultSets := [] }
    previous := { ok := false, resultSets := [] }
    playerInfo := { ok := false, resultSets := [] } }

/-- C4 witness: the theorem applied at the non-numeric id "abc". -/
theorem stats_route_contract_witness :
    statsRoute c4Env "abc" = { status := 400, body := StatsBody.err "Invalid player ID" } :=
  ((stats_route_contract "abc" c4Env c4Env).1 (by decide)).1

/-- C5: an absent or empty q yields HTTP 200 with the all-default empty
envelope (total_pages 0, current_page 1, next_page null, per_page 25,
total_count 0), independently of the search environment (the stats client
is not consulted). -/
theorem empty_query_envelope (env env2 : SearchEnv) (q : Option String)
    (h : q = none ∨ q = some "") :
    searchRoute env q = { status := 200, body := emptySearchEnvelope } ∧
    searchRoute env q = searchRoute env2 q ∧
    emptySearchEnvelope =
      { data := []
        meta := { total_pages := 0, current_page := 1, next_page := none,
                  per_page := 25, total_count := 0 }
        error := none } := by
  rcases h with h | h <;> subst h <;>
    exact ⟨by simp [searchRoute], by simp [searchRoute], rfl⟩

/-- C5 witness: the theorem applied at the empty query. -/
theorem empty_query_envelope_witness :
    searchRoute { status := 500, resultSets := [] } (some "") =
      { status := 200, body := emptySearchEnvelope } :=
  (empty_query_envelope { status := 500, resultSets := [] }
    { status := 200, resultSets := [] } (some "") (Or.inr rfl)).1

/-- C6: a non-2xx upstream status on a non-blank search makes the stats
client return an empty list with the status-specific soft error message
(403 the proxy/IP-block message, 502 the proxy-unreachable message,
otherwise the generic failure message), without throwing, and the route
wraps it with HTTP 503; with no soft error the route status is 200. -/
theorem upstream_failure_soft_error :
    (∀ (env : SearchEnv) (q : String), strTrim q ≠ "" → respOk env.status = false →
      searchPlayers env q = { data := [], error := some (errMsgFor env.status) } ∧
      searchRoute env (some q) =
        { status := 503
          body := { data := []
                    meta := { total_pages := 1, current_page := 1, next_page := none,
                              per_page := 25, total_count := 0 }
                    error := some (errMsgFor env.status) } }) ∧
    (∀ (env : SearchEnv) (q : String), (searchPlayers env q).error = none →
      (searchRoute env (some q)).status = 200) ∧
    errMsgFor 403 =
      "NBA API blocked this request (proxy or origin may be blocked). Try Render or another host for the proxy." ∧
    errMsgFor 502 = "Proxy could not reach NBA API. Check proxy logs." ∧
    (∀ st, st ≠ 403 → st ≠ 502 → errMsgFor st = "Search failed: " ++ toString st) := by
  refine ⟨?_, ?_, by decide, by decide, ?_⟩
  · intro env q hq hbad
    have hq0 : q ≠ "" := by
      intro h
      subst h
      exact hq (by decide)
    have hsp : searchPlayers env q = { data := [], error := some (errMsgFor env.status) } := by
      simp [searchPlayers, hq, hbad]
    refine ⟨hsp, ?_⟩
    simp [searchRoute, hq0, hsp]
  · intro env q h
    by_cases hq0 : q = ""
    · subst hq0
      simp [searchRoute]
    · simp [searchRoute, hq0, h]
  · intro st h1 h2
    simp [errMsgFor, h1, h2]

/-- C6 witness: the theorem applied at a 403 upstream on the query
"bron". -/
theorem upstream_failure_soft_error_witness :
    searchPlayers { status := 403, resultSets := [] } "bron" =
      { data := []
        error := some "NBA API blocked this request (proxy or origin may be blocked). Try Render or another host for the proxy." } := by
  have h := (upstream_failure_soft_error.1 { status := 403, resultSets := [] } "bron"
    (by decide) (by decide)).1
  rw [h]
  rw [upstream_failure_soft_error.2.2.1]

/-- Helper: the filterMap of the search row mapper is the map of the row
builder over the rows passing the active-and-matching filter. -/
theorem filterMap_rowToPlayer (ql : String) (rows : List PlayerRow) :
    rows.filterMap (rowToPlayer ql) =
      (rows.filter (fun r => rowIsActive r && rowMatchesQuery ql r)).map playerOfRow := by
  induction rows with
  | nil => rfl
  | cons r rs ih =>
    by_cases ha : rowIsActive r <;> by_cases hm : rowMatchesQuery ql r <;>
      simp [List.filterMap_cons, List.filter_cons, rowToPlayer, ha, hm, ih]

/-- C7: on a successful upstream response, the returned players are
exactly the active rows (roster flag 1 or games-played flag "Y") whose
lowercased name, in either form or in any single space or comma-space
separated token of it, contains the lowercased trimmed query, mapped to
Player records in row order and truncated to 25; matching is
case-insensitive, and the query "bron" matches the LeBron James row. -/
theorem search_returns_matching_active_players (env : SearchEnv) (q : String)
    (rows : List PlayerRow) (rest : List (List PlayerRow))
    (hq : strTrim q ≠ "") (hok : respOk env.status = true)
    (hsets : env.resultSets = rows :: rest) :
    (searchPlayers env q).data =
      ((rows.filter (fun r =>
          rowIsActive r && rowMatchesQuery (strTrim (strLower q)) r)).map
        playerOfRow).take 25 ∧
    (∀ q2, strLower q2 = strLower q → strTrim q2 ≠ "" →
      searchPlayers env q2 = searchPlayers env q) ∧
    rowMatchesQuery "bron" lebronRow = true ∧
    playerOfRow lebronRow =
      { id := 2544, first_name := "LeBron", last_name := "James",
        display_name := some "LeBron James" } := by
  refine ⟨?_, ?_, by decide, by decide⟩
  · rcases rows with _ | ⟨r, rs⟩
    · simp [searchPlayers, hq, hok, hsets]
    · simp [searchPlayers, hq, hok, hsets, filterMap_rowToPlayer]
  · intro q2 hlow hq2
    simp [searchPlayers, hq, hq2, hok, hsets, hlow]

/-- C7 witness: the theorem applied to the one-row LeBron environment and
the query "Bron" (capitalised, exercising case-insensitivity). -/
theorem search_returns_matching_active_players_witness :
    (searchPlayers { status := 200, resultSets := [[lebronRow]] } "Bron").data =
      [{ id := 2544, first_name := "LeBron", last_name := "James",
         display_name := some "LeBron James" }] := by
  rw [(search_returns_matching_active_players
    { status := 200, resultSets := [[lebronRow]] } "Bron" [lebronRow] []
    (by decide) (by decide) rfl).1]
  decide

/-- C9: a stats lookup issues at most two season-dashboard requests; when
the ok current-season response lacks an OverallPlayerDashboard result set
(or has none at all), exactly one previous-season lookup is made and the
result is whatever it gives; and the previous-season path itself either
gives up with no result or returns a previous-season record, never a
further fallback. -/
theorem at_most_one_fallback (env : StatsEnv) (pid : ℚ) :
    dashboardCalls env ≤ 2 ∧
    (env.current.ok = true →
      resolveDashboard env.current.resultSets = DashOutcome.noDashboard →
      dashboardCalls env = 2 ∧
      fetchPlayerSeasonAverages env pid = tryPreviousSeason env pid) ∧
    (tryPreviousSeason env pid = none ∨
      ∃ pts fga, resolveDashboard env.previous.resultSets = DashOutcome.stats pts fga ∧
        tryPreviousSeason env pid =
          some { player := parsePlayerInfo pid env.playerInfo
                 pts := roundTo1 pts
                 fga := roundTo1 fga }) := by
  refine ⟨?_, ?_, ?_⟩
  · by_cases hok : env.current.ok
    · unfold dashboardCalls
      rcases h : resolveDashboard env.current.resultSets <;> simp [hok, h]
    · simp [dashboardCalls, hok]
  · intro hok h
    constructor
    · simp [dashboardCalls, hok, h]
    · simp [fetchPlayerSeasonAverages, hok, h]
  · by_cases hpok : env.previous.ok
    · cases h : resolveDashboard env.previous.resultSets with
      | noDashboard => exact Or.inl (by simp [tryPreviousSeason, hpok, h])
      | badColumns => exact Or.inl (by simp [tryPreviousSeason, hpok, h])
      | badValues => exact Or.inl (by simp [tryPreviousSeason, hpok, h])
      | zeroFga pts => exact Or.inl (by simp [tryPreviousSeason, hpok, h])
      | stats pts fga => exact Or.inr ⟨pts, fga, rfl, by simp [tryPreviousSeason, hpok, h]⟩
    · exact Or.inl (by simp [tryPreviousSeason, hpok])

/-- Environment for the C9 witness: an ok current-season response with a
result set list lacking the OverallPlayerDashboard. -/
def c9Env : StatsEnv :=
  { current := { ok := true, resultSets :=
      [{ name := "ByYearPlayerDashboard", headers := ["PTS", "FGA"],
         rowSet := [[Val.num 10, Val.num 5]] }] }
    previous := { ok := false, resultSets := [] }
    playerInfo := { ok := false, resultSets := [] } }

/-- C9 witness: the theorem applied to the concrete
no-OverallPlayerDashboard environment. -/
theorem at_most_one_fallback_witness :
    dashboardCalls c9Env = 2 :=
  ((at_most_one_fallback c9Env 1).2.1 rfl (by decide)).1

/-- C10: a whitespace-only q is passed to the stats client, which returns
an empty list with no soft error independently of the upstream (no request
is issued), and the route answers HTTP 200 with data [] and the one-page
metadata (total_pages 1), unlike the zero-page envelope of an absent q. -/
theorem whitespace_query_envelope (env env2 : SearchEnv) (q : String)
    (hq : q ≠ "") (hws : strTrim q = "") :
    searchPlayers env q = { data := [], error := none } ∧
    searchPlayers env q = searchPlayers env2 q ∧
    searchRoute env (some q) =
      { status := 200
        body := { data := []
                  meta := { total_pages := 1, current_page := 1, next_page := none,
                            per_page := 25, total_count := 0 }
                  error := none } } ∧
    searchRoute env none = { status := 200, body := emptySearchEnvelope } ∧
    emptySearchEnvelope.meta.total_pages = 0 := by
  have hsp : ∀ e : SearchEnv, searchPlayers e q = { data := [], error := none } := by
    intro e
    simp [searchPlayers, hws]
  refine ⟨hsp env, by rw [hsp env, hsp env2], ?_, by simp [searchRoute], rfl⟩
  simp [searchRoute, hq, hsp env]

/-- C10 witness: the theorem applied at the one-space query. -/
theorem whitespace_query_envelope_witness :
    searchRoute { status := 200, resultSets := [] } (some " ") =
      { status := 200
        body := { data := []
                  meta := { total_pages := 1, current_page := 1, next_page := none,
                            per_page := 25, total_count := 0 }
                  error := none } } :=
  (whitespace_query_envelope { status := 200, resultSets := [] }
    { status := 200, resultSets := [] } " " (by decide) (by decide)).2.2.1

end HowMany30
